import Mathlib

/-!
Shallow embedding of the lib-optional repository (include/lib-optional/optional.hpp):
a generic optional-value container `Optional<T>` with a boolean initialization flag
and single-slot union storage, plus its comparison operators, checked accessor,
valueOr, swap and the std hash specialization.

The C++ object is modelled as a structure holding the `mInitialized` flag and the
union storage. The storage slot is an `Option` value: `some v` means the slot has a
live constructed element v (the union has its ValueType member active), `none` means
the slot is unconstructed (the `mEmpty` member is active). The class invariant of the
source (flag true only while a value is constructed in the slot) is carried as a proof
field, which makes the storage read in dereference and the checked accessor total, as
in the source under its own invariant. Moving a value between slots is modelled with
value semantics: the moved-to slot receives the value, the moved-from slot keeps its
moved-from contents (the source never destroys a slot on move; it only clears flags
where the code does).
-/

namespace LibOptional

/-- Model of the C++ class: flag `mInitialized` plus the union storage `mValue`.
`hInv` is the class invariant relied on throughout the source: whenever the flag is
set, the storage slot holds a constructed value. -/
structure Optional (α : Type) where
  mInitialized : Bool
  mValue : Option α
  hInv : mInitialized = true → mValue.isSome = true

namespace Optional

/-- Default constructor / NullOptionalT constructor: flag false, storage unconstructed
(the union member mEmpty is active). -/
def empty {α : Type} : Optional α :=
  ⟨false, none, by simp⟩

/-- Private member construct(args...): placement-constructs a value in the slot and
sets the flag. -/
def construct {α : Type} (v : α) : Optional α :=
  ⟨true, some v, by simp⟩

/-- Observer hasValue() (also operator bool): returns the flag. -/
def hasValue {α : Type} (o : Optional α) : Bool :=
  o.mInitialized

/-- Dereference of an initialized optional: reads the constructed value out of the
storage slot; total thanks to the class invariant. -/
def get {α : Type} (o : Optional α) (h : o.mInitialized = true) : α :=
  o.mValue.get (o.hInv h)

/-- The observable content of an optional: the dereferenced value when the flag is
set, nothing otherwise. -/
def peek {α : Type} (o : Optional α) : Option α :=
  if h : o.mInitialized = true then some (o.get h) else none

/-- reset(): if initialized, clears the flag and destroys the slot value; otherwise
a no-op. -/
def reset {α : Type} (o : Optional α) : Optional α :=
  if o.mInitialized = true then ⟨false, none, by simp⟩ else o

/-- Copy constructor Optional(const Optional&): a fresh object (flag initially
false) that copy-constructs the slot from the source when the source is
initialized. The source is untouched. -/
def copyConstruct {α : Type} (other : Optional α) : Optional α :=
  if h : other.mInitialized = true then construct (other.get h) else empty

/-- Move constructor Optional(Optional&&): when the source is initialized, the new
object move-constructs its slot from the source slot and then the source flag is
cleared (the source slot keeps its moved-from contents). Returns (new object,
source after the call). -/
def moveConstruct {α : Type} (other : Optional α) : Optional α × Optional α :=
  if h : other.mInitialized = true then
    (construct (other.get h), ⟨false, other.mValue, by simp⟩)
  else
    (empty, other)

/-- Move assignment operator=(Optional&&): both initialized, move-assigns
slot-to-slot then clears the source flag; only the source initialized, constructs
into the target then clears the source flag; source empty, resets the target.
Returns (target after the call, source after the call); the operator returns a
reference to the target, whose final state is the first component. -/
def moveAssign {α : Type} (self other : Optional α) : Optional α × Optional α :=
  if _hs : self.mInitialized = true then
    if ho : other.mInitialized = true then
      (⟨true, other.mValue, fun _ => other.hInv ho⟩, ⟨false, other.mValue, by simp⟩)
    else
      (self.reset, other)
  else
    if ho : other.mInitialized = true then
      (construct (other.get ho), ⟨false, other.mValue, by simp⟩)
    else
      (self.reset, other)

/-- Copy assignment operator=(const Optional&). The element copy-assignment
mValue = other.mValue is modelled by the parameter asg: the new slot value is
asg applied to the old target value and the source value (for ordinary regular
element types asg a b = b). Both initialized, copy-assigns value-to-value; only
the source initialized, copy-constructs into the target; source empty, resets the
target. Returns (target after the call, source after the call); the operator
returns a reference to the target, whose final state is the first component. -/
def copyAssign {α : Type} (asg : α → α → α) (self other : Optional α) :
    Optional α × Optional α :=
  if hs : self.mInitialized = true then
    if ho : other.mInitialized = true then
      (⟨true, some (asg (self.get hs) (other.get ho)), by simp⟩, other)
    else
      (self.reset, other)
  else
    if ho : other.mInitialized = true then
      (construct (other.get ho), other)
    else
      (self.reset, other)

/-- Converting move constructor Optional(Optional<TOther>&&), with f the
element-level conversion from the TOther storage type to the target storage type.
The body is: if (other) emplace(std::move(*other)); — the fresh target (flag
initially false) is reset (a no-op) and then constructs f of the source value.
Note the body never writes other.mInitialized: the source keeps its flag, holding
a moved-from value. Returns (new object, source after the call). -/
def convMoveConstruct {α β : Type} (f : β → α) (other : Optional β) :
    Optional α × Optional β :=
  if h : other.hasValue = true then
    (construct (f (other.get h)), other)
  else
    (empty, other)

/-- Self move assignment o = std::move(o): in operator=(Optional&&) both this and
other alias the same object, so when initialized the branch mValue =
std::move(mValue) self-move-assigns the slot (the slot keeps a value) and then
other.mInitialized = false clears the flag of that same object; when empty, the
else-branch calls reset, a no-op. -/
def selfMoveAssign {α : Type} (o : Optional α) : Optional α :=
  if o.mInitialized = true then ⟨false, o.mValue, by simp⟩ else o.reset

/-- Self copy assignment o = o: in operator=(const Optional&) both sides alias the
same object, so when initialized the branch mValue = other.mValue self-assigns the
slot (modelled by asg applied twice to the held value) and the flag stays set;
when empty, the else-branch calls reset, a no-op. -/
def selfCopyAssign {α : Type} (asg : α → α → α) (o : Optional α) : Optional α :=
  if h : o.mInitialized = true then
    ⟨true, some (asg (o.get h) (o.get h)), by simp⟩
  else
    o.reset

/-- swap(other): both initialized, swaps the two slot values in place; only this
initialized, constructs this value into other then resets this; only other
initialized, constructs the other value into this then resets other; both empty,
no-op. Returns (this after the call, other after the call). -/
def swap {α : Type} (self other : Optional α) : Optional α × Optional α :=
  if hs : self.mInitialized = true then
    if ho : other.mInitialized = true then
      (⟨true, other.mValue, fun _ => other.hInv ho⟩, ⟨true, self.mValue, fun _ => self.hInv hs⟩)
    else
      (self.reset, construct (self.get hs))
  else
    if ho : other.mInitialized = true then
      (construct (other.get ho), other.reset)
    else
      (self, other)

end Optional

/-- BadOptionalAccess: the error type thrown by value(), derived from
std::exception. -/
structure BadOptionalAccess where

/-- The what() override of BadOptionalAccess. -/
def BadOptionalAccess.what (_ : BadOptionalAccess) : String :=
  "Bad Optional access"

namespace Optional

/-- Checked accessor value(): throws BadOptionalAccess when the flag is clear,
otherwise returns the slot value. All four qualification variants share this body
(the reference variants return the bound reference target, read from the same
slot). The second component is the state of the optional after the call: the body
only reads mInitialized and mValue, so the state is returned untouched, also on
the throwing path. -/
def value {α : Type} (o : Optional α) : Except BadOptionalAccess α × Optional α :=
  (if h : o.mInitialized = true then Except.ok (o.get h) else Except.error ⟨⟩, o)

/-- valueOr(fallback) for non-reference element types:
mInitialized ? mValue : static_cast<TRaw>(std::forward<TOther>(value)).
A const member: it cannot modify the optional. -/
def valueOr {α : Type} (o : Optional α) (fallback : α) : α :=
  if h : o.mInitialized = true then o.get h else fallback

end Optional

/-- The empty-state result of the std::hash specialization: the C++ returns the
int -23 converted to std::size_t, i.e. 2^64 - 23 on a 64-bit size_t. -/
def emptyOptionalHashSentinel : Nat :=
  2 ^ 64 - 23

/-- std::hash<Optional<T>>::operator(): o.hasValue() ? hash<T>{}(o.value()) : -23,
with hashT the element hash and the -23 sentinel converted to size_t. On the
hasValue branch o.value() returns the held value (the flag is set, so no throw). -/
def stdHashOptional {α : Type} (hashT : α → Nat) (o : Optional α) : Nat :=
  if h : o.hasValue = true then hashT (o.get h) else emptyOptionalHashSentinel

/-- operator==(const Optional&, const Optional&):
bool(x) != bool(y) ? false : bool(x) == false ? true : *x == *y,
with eqv the element operator==. -/
def optionalEq {α : Type} (eqv : α → α → Bool) (x y : Optional α) : Bool :=
  match x.peek, y.peek with
  | none, none => true
  | some a, some b => eqv a b
  | _, _ => false

/-- operator<(const Optional&, const Optional&):
(!y) ? false : (!x) ? true : *x < *y, with ltv the element operator<. -/
def optionalLt {α : Type} (ltv : α → α → Bool) (x y : Optional α) : Bool :=
  match x.peek, y.peek with
  | _, none => false
  | none, some _ => true
  | some a, some b => ltv a b

/-- operator==(const Optional&, const T&): bool(x) ? *x == v : false. -/
def optionalEqVal {α : Type} (eqv : α → α → Bool) (x : Optional α) (v : α) : Bool :=
  match x.peek with
  | some a => eqv a v
  | none => false

/-- operator==(const T&, const Optional&): bool(x) ? v == *x : false. -/
def valEqOptional {α : Type} (eqv : α → α → Bool) (v : α) (x : Optional α) : Bool :=
  match x.peek with
  | some a => eqv v a
  | none => false

/-- operator<(const Optional&, const T&): bool(x) ? *x < v : true. -/
def optionalLtVal {α : Type} (ltv : α → α → Bool) (x : Optional α) (v : α) : Bool :=
  match x.peek with
  | some a => ltv a v
  | none => true

/-- operator>(const T&, const Optional&): bool(x) ? v > *x : true. -/
def valGtOptional {α : Type} (gtv : α → α → Bool) (v : α) (x : Optional α) : Bool :=
  match x.peek with
  | some a => gtv v a
  | none => true

/-- operator>(const Optional&, const T&): bool(x) ? *x > v : false. -/
def optionalGtVal {α : Type} (gtv : α → α → Bool) (x : Optional α) (v : α) : Bool :=
  match x.peek with
  | some a => gtv a v
  | none => false

/-- operator<(const T&, const Optional&): bool(x) ? v < *x : false. -/
def valLtOptional {α : Type} (ltv : α → α → Bool) (v : α) (x : Optional α) : Bool :=
  match x.peek with
  | some a => ltv v a
  | none => false

/-- operator==(const Optional&, NullOptionalT): (!x). -/
def optionalEqNull {α : Type} (x : Optional α) : Bool :=
  !x.hasValue

/-- operator==(NullOptionalT, const Optional&): (!x). -/
def nullEqOptional {α : Type} (x : Optional α) : Bool :=
  !x.hasValue

/-- operator>(NullOptionalT, const Optional&): false. -/
def nullGtOptional {α : Type} (_ : Optional α) : Bool :=
  false

/-- operator<=(NullOptionalT, const Optional&): true. -/
def nullLeOptional {α : Type} (_ : Optional α) : Bool :=
  true

/-- C1 counterexample: the converting move constructor does not clear the
has-value flag of the source. Moving out of an Optional Nat holding 5 through the
element conversion n + 1 leaves the source with hasValue true, refuting the claim
that the source has-value flag becomes false. -/
theorem convMove_source_not_emptied :
    ¬ ((Optional.convMoveConstruct (fun n : Nat => n + 1)
        (Optional.construct 5)).2.hasValue = false) := by
  decide

/-- C1 (amended): when the source holds a value, the converting move constructor
constructs the target value from the source value through the element conversion;
but unlike the non-converting move constructor, the source is left untouched: its
has-value flag remains true (it keeps holding a moved-from value). -/
theorem convMoveConstruct_spec {α β : Type} (f : β → α) (other : Optional β)
    (v : β) (h : other.peek = some v) :
    (Optional.convMoveConstruct f other).1.peek = some (f v) ∧
    (Optional.convMoveConstruct f other).2 = other ∧
    (Optional.convMoveConstruct f other).2.hasValue = true := by
  obtain ⟨bf, bs, bi⟩ := other
  cases bf <;> cases bs <;>
    simp_all [Optional.convMoveConstruct, Optional.construct, Optional.peek,
      Optional.get, Optional.hasValue]

/-- Closed instance of convMoveConstruct_spec at a concrete input. -/
theorem convMoveConstruct_spec_witness :
    (Optional.convMoveConstruct (fun n : Nat => n + 1)
        (Optional.construct 5)).1.peek = some 6 ∧
    (Optional.convMoveConstruct (fun n : Nat => n + 1)
        (Optional.construct 5)).2 = Optional.construct 5 ∧
    (Optional.convMoveConstruct (fun n : Nat => n + 1)
        (Optional.construct 5)).2.hasValue = true :=
  convMoveConstruct_spec (fun n : Nat => n + 1) (Optional.construct 5) 5 (by decide)

/-- C2: calling value() on an empty optional returns a BadOptionalAccess error
whose description is the human-readable string of the what() override, and the
state of the optional after the call is unchanged (still empty and usable);
calling value() on an optional holding v returns v, again leaving the state
unchanged. -/
theorem value_checked_spec {α : Type} (o : Optional α) :
    (o.hasValue = false →
      o.value = (Except.error ⟨⟩, o) ∧
      BadOptionalAccess.what ⟨⟩ = "Bad Optional access") ∧
    (∀ v, o.peek = some v → o.value = (Except.ok v, o)) := by
  obtain ⟨f, s, i⟩ := o
  cases f <;> cases s <;>
    simp_all [Optional.value, Optional.peek, Optional.get, Optional.hasValue,
      BadOptionalAccess.what]

/-- Closed instance of value_checked_spec at concrete inputs. -/
theorem value_checked_spec_witness :
    ((Optional.empty : Optional Nat).value = (Except.error ⟨⟩, Optional.empty) ∧
      BadOptionalAccess.what ⟨⟩ = "Bad Optional access") ∧
    (Optional.construct (7 : Nat)).value = (Except.ok 7, Optional.construct 7) :=
  ⟨(value_checked_spec (Optional.empty : Optional Nat)).1 (by decide),
    (value_checked_spec (Optional.construct (7 : Nat))).2 7 (by decide)⟩

/-- C3: move construction and move assignment from a source holding v transfer v
into the target and leave the source has-value flag false; from an empty source
they leave both the target and the source empty. -/
theorem move_transfer_spec {α : Type} (x y : Optional α) :
    (∀ v, x.peek = some v →
      (Optional.moveConstruct x).1.peek = some v ∧
      (Optional.moveConstruct x).2.hasValue = false) ∧
    (x.hasValue = false →
      (Optional.moveConstruct x).1.hasValue = false ∧
      (Optional.moveConstruct x).2.hasValue = false) ∧
    (∀ v, y.peek = some v →
      (Optional.moveAssign x y).1.peek = some v ∧
      (Optional.moveAssign x y).2.hasValue = false) ∧
    (y.hasValue = false →
      (Optional.moveAssign x y).1.hasValue = false ∧
      (Optional.moveAssign x y).2.hasValue = false) := by
  obtain ⟨xf, xs, xi⟩ := x
  obtain ⟨yf, ys, yi⟩ := y
  cases xf <;> cases yf <;> cases xs <;> cases ys <;>
    simp_all [Optional.moveConstruct, Optional.moveAssign, Optional.construct,
      Optional.empty, Optional.reset, Optional.peek, Optional.get, Optional.hasValue]

/-- Closed instance of move_transfer_spec at concrete inputs. -/
theorem move_transfer_spec_witness :
    ((Optional.moveConstruct (Optional.construct (4 : Nat))).1.peek = some 4 ∧
      (Optional.moveConstruct (Optional.construct (4 : Nat))).2.hasValue = false) ∧
    ((Optional.moveAssign (Optional.construct (1 : Nat))
        (Optional.construct 4)).1.peek = some 4 ∧
      (Optional.moveAssign (Optional.construct (1 : Nat))
        (Optional.construct 4)).2.hasValue = false) :=
  ⟨(move_transfer_spec (Optional.construct (4 : Nat))
      (Optional.construct (4 : Nat))).1 4 (by decide),
    (move_transfer_spec (Optional.construct (1 : Nat))
      (Optional.construct (4 : Nat))).2.2.1 4 (by decide)⟩

/-- C4: copy assignment follows exactly three branches: both sides holding,
the target slot value is updated by the element copy-assignment asg applied to
the old target value and the source value (not destroy-and-reconstruct, which
would discard the old target value before asg could see it); only the source
holding, a fresh value is copy-constructed into the target; source empty, the
target is reset. In every branch the source comes back unmodified. The first
component of the result is the post-state of the left-hand optional, which is
what operator= returns by reference. -/
theorem copy_assign_spec {α : Type} (asg : α → α → α) (x y : Optional α) :
    (Optional.copyAssign asg x y).2 = y ∧
    (∀ a b, x.peek = some a → y.peek = some b →
      (Optional.copyAssign asg x y).1.peek = some (asg a b)) ∧
    (∀ b, x.hasValue = false → y.peek = some b →
      (Optional.copyAssign asg x y).1.peek = some b) ∧
    (y.hasValue = false → (Optional.copyAssign asg x y).1.hasValue = false) := by
  obtain ⟨xf, xs, xi⟩ := x
  obtain ⟨yf, ys, yi⟩ := y
  cases xf <;> cases yf <;> cases xs <;> cases ys <;>
    simp_all [Optional.copyAssign, Optional.construct, Optional.reset,
      Optional.peek, Optional.get, Optional.hasValue]

/-- Closed instance of copy_assign_spec at concrete inputs. -/
theorem copy_assign_spec_witness :
    (Optional.copyAssign (fun a b : Nat => a + b) (Optional.construct 2)
        (Optional.construct 5)).2 = Optional.construct 5 ∧
    (Optional.copyAssign (fun a b : Nat => a + b) (Optional.construct 2)
        (Optional.construct 5)).1.peek = some 7 :=
  ⟨(copy_assign_spec (fun a b : Nat => a + b) (Optional.construct 2)
      (Optional.construct 5)).1,
    (copy_assign_spec (fun a b : Nat => a + b) (Optional.construct 2)
      (Optional.construct 5)).2.1 2 5 (by decide) (by decide)⟩

/-- C5: the optional-to-optional operators delegate to the element comparison:
x == y holds exactly when both are empty or both hold elementwise-equal values;
x < y holds exactly when x is empty and y holds a value, or both hold values
with the one in x elementwise-less than the one in y (so an empty optional is
less than any holding one, and two empties are equal, never less). -/
theorem optional_compare_spec {α : Type} (eqv ltv : α → α → Bool)
    (x y : Optional α) :
    (optionalEq eqv x y = true ↔
      (x.hasValue = false ∧ y.hasValue = false) ∨
        (∃ a b, x.peek = some a ∧ y.peek = some b ∧ eqv a b = true)) ∧
    (optionalLt ltv x y = true ↔
      (x.hasValue = false ∧ y.hasValue = true) ∨
        (∃ a b, x.peek = some a ∧ y.peek = some b ∧ ltv a b = true)) := by
  obtain ⟨xf, xs, xi⟩ := x
  obtain ⟨yf, ys, yi⟩ := y
  cases xf <;> cases yf <;> cases xs <;> cases ys <;>
    first
      | exact Bool.noConfusion (xi rfl)
      | exact Bool.noConfusion (yi rfl)
      | simp_all [optionalEq, optionalLt, Optional.peek, Optional.get,
          Optional.hasValue]

/-- C6: with x empty, the mixed optional-to-value comparisons make x equal to no
value, less than every value, and greater than none, in both argument orders;
the empty-marker comparisons reduce equality to emptiness in both orders, the
marker is never greater than any optional, and always less-or-equal. -/
theorem mixed_compare_empty_spec {α : Type} (eqv ltv gtv : α → α → Bool)
    (v : α) (x : Optional α) :
    (x.hasValue = false →
      optionalEqVal eqv x v = false ∧ valEqOptional eqv v x = false ∧
      optionalLtVal ltv x v = true ∧ valGtOptional gtv v x = true ∧
      optionalGtVal gtv x v = false ∧ valLtOptional ltv v x = false) ∧
    optionalEqNull x = !x.hasValue ∧ nullEqOptional x = !x.hasValue ∧
    nullGtOptional x = false ∧ nullLeOptional x = true := by
  obtain ⟨xf, xs, xi⟩ := x
  cases xf <;> cases xs <;>
    simp_all [optionalEqVal, valEqOptional, optionalLtVal, valGtOptional,
      optionalGtVal, valLtOptional, optionalEqNull, nullEqOptional,
      nullGtOptional, nullLeOptional, Optional.peek, Optional.get,
      Optional.hasValue]

/-- Closed instance of mixed_compare_empty_spec at a concrete input. -/
theorem mixed_compare_empty_spec_witness :
    (optionalEqVal (fun a b : Nat => a == b) (Optional.empty : Optional Nat) 9 = false ∧
      valEqOptional (fun a b : Nat => a == b) 9 (Optional.empty : Optional Nat) = false ∧
      optionalLtVal (fun a b : Nat => decide (a < b)) (Optional.empty : Optional Nat) 9 = true ∧
      valGtOptional (fun a b : Nat => decide (b < a)) 9 (Optional.empty : Optional Nat) = true ∧
      optionalGtVal (fun a b : Nat => decide (b < a)) (Optional.empty : Optional Nat) 9 = false ∧
      valLtOptional (fun a b : Nat => decide (a < b)) 9 (Optional.empty : Optional Nat) = false) ∧
    optionalEqNull (Optional.empty : Optional Nat) =
        !(Optional.empty : Optional Nat).hasValue ∧
    nullEqOptional (Optional.empty : Optional Nat) =
        !(Optional.empty : Optional Nat).hasValue ∧
    nullGtOptional (Optional.empty : Optional Nat) = false ∧
    nullLeOptional (Optional.empty : Optional Nat) = true :=
  ⟨(mixed_compare_empty_spec (fun a b : Nat => a == b) (fun a b : Nat => decide (a < b))
      (fun a b : Nat => decide (b < a)) 9 (Optional.empty : Optional Nat)).1 (by decide),
    (mixed_compare_empty_spec (fun a b : Nat => a == b) (fun a b : Nat => decide (a < b))
      (fun a b : Nat => decide (b < a)) 9 (Optional.empty : Optional Nat)).2⟩

/-- C7: swap behaves by exactly four cases: both holding, the contained values
are exchanged in place; exactly one holding, its value moves into the empty one
and the formerly holding optional becomes empty; both empty, the call is a no-op
and both stay exactly as they were. -/
theorem swap_spec {α : Type} (x y : Optional α) :
    (∀ a b, x.peek = some a → y.peek = some b →
      (Optional.swap x y).1.peek = some b ∧ (Optional.swap x y).2.peek = some a) ∧
    (∀ a, x.peek = some a → y.hasValue = false →
      (Optional.swap x y).1.hasValue = false ∧
      (Optional.swap x y).2.peek = some a) ∧
    (∀ b, x.hasValue = false → y.peek = some b →
      (Optional.swap x y).1.peek = some b ∧
      (Optional.swap x y).2.hasValue = false) ∧
    (x.hasValue = false → y.hasValue = false → Optional.swap x y = (x, y)) := by
  obtain ⟨xf, xs, xi⟩ := x
  obtain ⟨yf, ys, yi⟩ := y
  cases xf <;> cases yf <;> cases xs <;> cases ys <;>
    first
      | exact Bool.noConfusion (xi rfl)
      | exact Bool.noConfusion (yi rfl)
      | simp_all [Optional.swap, Optional.construct, Optional.reset,
          Optional.peek, Optional.get, Optional.hasValue]

/-- Closed instance of swap_spec at concrete inputs. -/
theorem swap_spec_witness :
    ((Optional.swap (Optional.construct (1 : Nat))
        (Optional.construct 2)).1.peek = some 2 ∧
      (Optional.swap (Optional.construct (1 : Nat))
        (Optional.construct 2)).2.peek = some 1) ∧
    ((Optional.swap (Optional.construct (1 : Nat))
        Optional.empty).1.hasValue = false ∧
      (Optional.swap (Optional.construct (1 : Nat))
        Optional.empty).2.peek = some 1) :=
  ⟨(swap_spec (Optional.construct (1 : Nat)) (Optional.construct 2)).1 1 2
      (by decide) (by decide),
    (swap_spec (Optional.construct (1 : Nat)) Optional.empty).2.1 1
      (by decide) (by decide)⟩

/-- C8: the std hash specialization returns the element hash of the held value
when one is present, and the fixed empty-state sentinel (the int -23 converted to
a 64-bit size_t) when empty; being a constant, the sentinel is the same on every
call. -/
theorem hash_spec {α : Type} (hashT : α → Nat) (o : Optional α) :
    (∀ v, o.peek = some v → stdHashOptional hashT o = hashT v) ∧
    (o.hasValue = false → stdHashOptional hashT o = emptyOptionalHashSentinel) := by
  refine ⟨fun v hv => ?_, fun hf => ?_⟩ <;>
  · obtain ⟨f, s, i⟩ := o
    cases f <;> cases s <;>
      first
        | exact Bool.noConfusion (i rfl)
        | simp_all [stdHashOptional, Optional.peek, Optional.get, Optional.hasValue]

/-- Closed instance of hash_spec: with the identity element hash,
hash (Optional 3) = 3 = hash 3, and the empty optional hashes to the sentinel. -/
theorem hash_spec_witness :
    stdHashOptional (fun n : Nat => n) (Optional.construct 3) = 3 ∧
    stdHashOptional (fun n : Nat => n) (Optional.empty : Optional Nat) =
      emptyOptionalHashSentinel :=
  ⟨(hash_spec (fun n : Nat => n) (Optional.construct 3)).1 3 (by decide),
    (hash_spec (fun n : Nat => n) (Optional.empty : Optional Nat)).2 rfl⟩

/-- C9: valueOr returns the held value when one is present and the fallback when
empty; in particular valueOr 3 on an optional holding 5 gives 5 and on an empty
optional gives 3. A const member, it leaves the optional untouched. -/
theorem valueOr_spec {α : Type} (o : Optional α) (fb : α) :
    (∀ v, o.peek = some v → o.valueOr fb = v) ∧
    (o.hasValue = false → o.valueOr fb = fb) ∧
    (Optional.construct (5 : Nat)).valueOr 3 = 5 ∧
    (Optional.empty : Optional Nat).valueOr 3 = 3 := by
  refine ⟨fun v hv => ?_, fun hf => ?_, by decide, by decide⟩ <;>
  · obtain ⟨f, s, i⟩ := o
    cases f <;> cases s <;>
      first
        | exact Bool.noConfusion (i rfl)
        | simp_all [Optional.valueOr, Optional.peek, Optional.get,
            Optional.hasValue]

/-- Closed instance of valueOr_spec at concrete inputs. -/
theorem valueOr_spec_witness :
    (Optional.construct (5 : Nat)).valueOr 3 = 5 ∧
    (Optional.empty : Optional Nat).valueOr 3 = 3 :=
  ⟨(valueOr_spec (Optional.construct (5 : Nat)) 3).1 5 (by decide),
    (valueOr_spec (Optional.empty : Optional Nat) 3).2.1 rfl⟩

/-- C10: on an optional holding a value, self move assignment takes the
both-initialized branch, self-move-assigns the slot and then clears the flag
through the aliased source, leaving the optional empty; self copy assignment
takes the same branch but never touches the flag, leaving the optional still
holding a value. -/
theorem self_assign_spec {α : Type} (asg : α → α → α) (o : Optional α)
    (h : o.hasValue = true) :
    (Optional.selfMoveAssign o).hasValue = false ∧
    (Optional.selfCopyAssign asg o).hasValue = true := by
  obtain ⟨f, s, i⟩ := o
  cases f <;> cases s <;>
    first
      | exact Bool.noConfusion (i rfl)
      | simp_all [Optional.selfMoveAssign, Optional.selfCopyAssign,
          Optional.reset, Optional.hasValue]

/-- Closed instance of self_assign_spec at a concrete input. -/
theorem self_assign_spec_witness :
    (Optional.selfMoveAssign (Optional.construct (6 : Nat))).hasValue = false ∧
    (Optional.selfCopyAssign (fun _ b : Nat => b)
        (Optional.construct 6)).hasValue = true :=
  self_assign_spec (fun _ b : Nat => b) (Optional.construct 6) (by decide)

end LibOptional
